import Mathlib

/-!
Shallow embedding of the Ansible module `vmware_guest_move`
(`lib/ansible/modules/cloud/vmware/vmware_guest_move.py`).

The module's `main()` is modelled as a pure function from the module
parameters and an environment — the behaviour, during this one
invocation, of the external collaborators (inventory client, task
waiter, fact gatherer) — to a terminal outcome, together with the
trace of calls the module issued to the environment.  `Except.error`
on an environment field marks the corresponding collaborator call
raising an exception.
-/

/-- Descriptive facts payload returned by the external fact gatherer
(`pyv.gather_facts(vm)`); opaque to this module. -/
structure Facts where
  payload : String
  deriving Repr, DecidableEq

/-- A resolved VM object; the module reads only its display name
(`vm.name`). -/
structure VM where
  name : String
  deriving Repr, DecidableEq

/-- An opaque inventory handle returned by `FindByInventoryPath`. -/
structure Handle where
  ref : String
  deriving Repr, DecidableEq

/-- The module parameters `main` branches on.  The connection
parameters, `datacenter`, `name_match` and `use_instance_uuid` only
feed the external collaborators and are absorbed into `Env`. -/
structure Params where
  name : Option String
  uuid : Option String
  dest_folder : String
  deriving Repr, DecidableEq

/-- Behaviour of the external collaborators during one invocation.
Modelled from the spec's interface description: the inventory client
resolves the VM (`get_vm`), computes the VM's containing folder path
(`get_vm_path`), and looks objects up by inventory path
(`findByInventoryPath`); the task waiter returns a
(success-flag, error-detail) pair after the move (`move`); the fact
gatherer returns the descriptive facts (`gather_facts`).  An
`Except.error` value means that collaborator call raised. -/
structure Env where
  check_mode : Bool
  get_vm : Except String (Option VM)
  get_vm_path : Except String String
  findByInventoryPath : String → Except String (Option Handle)
  gather_facts : Facts
  move : Except String (Bool × String)

/-- Terminal outcome of one invocation of `main`:
`exitJson changed inst` for `module.exit_json`, `failJson msg` for
`module.fail_json`, `uncaught msg` for an exception that escapes
`main` uncaught, and `noReport` for falling off the end of `main`
without reporting anything. -/
inductive Outcome where
  | exitJson (changed : Bool) (inst : Option Facts)
  | failJson (msg : String)
  | uncaught (msg : String)
  | noReport
  deriving Repr, DecidableEq

/-- A call the module issues to the environment: the VM lookup
(`pyv.get_vm()`), a path lookup (`FindByInventoryPath`), or the one
mutating call (`folder.MoveInto([vm_to_move])`, recording the handle
argument). -/
inductive Event where
  | getVmCall
  | findPathCall (path : String)
  | moveIntoCall (arg : Option Handle)
  deriving Repr, DecidableEq

/-- Python `s.lstrip('/')`: drop all leading slash characters. -/
def lstripSlash (s : String) : String :=
  String.mk (s.data.dropWhile fun c => c = '/')

/-- Python `s.rstrip('/')`: drop all trailing slash characters. -/
def rstripSlash (s : String) : String :=
  String.mk ((s.data.reverse.dropWhile fun c => c = '/').reverse)

/-- Python truthiness of an optional string: `None` and `""` are
falsy. -/
def pyTruthy : Option String → Bool
  | none => false
  | some s => !(s == "")

/-- Python `(uuid or name)` rendered through `"%s"` as in the VM
not-found message. -/
def pyOrStr (uuid name : Option String) : String :=
  if pyTruthy uuid then uuid.getD "None"
  else
    match name with
    | some n => n
    | none => "None"

/-- Modelled from the spec: `AnsibleModule` (the external
argument-validation harness, not part of this file's source) accepts
the parameters iff exactly one of `name`/`uuid` is supplied
(`required_one_of=[['name','uuid']]`,
`mutually_exclusive=[['name','uuid']]`). -/
def validParams (name uuid : Option String) : Bool :=
  match name, uuid with
  | some _, none => true
  | none, some _ => true
  | _, _ => false

/-- Modelled from the spec: the failure message the external
argument-validation harness emits when the name/uuid rule is violated
(its exact wording is owned by that harness). -/
def argErrorMsg : String :=
  "name and uuid are mutually exclusive and one of them is required"

/-- Message head of the catch-all handler:
`"Failed to move VM with exception %s"`. -/
def excMsgHead : String := "Failed to move VM with exception "

/-- The name used to build the VM's full inventory path:
`vm_name = module.params['name'] if module.params['name'] else
vm.name` (Python truthiness, so an empty `name` falls back to
`vm.name`). -/
def vmDisplayName (name : Option String) (vm : VM) : String :=
  if pyTruthy name then name.getD "" else vm.name

/-- `vm_full = vm_path + '/' + vm_name`, where
`vm_path = pyv.get_vm_path(...).lstrip('/')`. -/
def vmFullPath (name : Option String) (vm : VM) (rawPath : String) : String :=
  lstripSlash rawPath ++ "/" ++ vmDisplayName name vm

/-- Embedding of `main()` after the initial
`dest_folder.rstrip('/')` normalization (`dest` is the already
stripped destination).  Mirrors the source line by line: argument
validation, `pyv.get_vm()`, the not-found branch, then inside the
`try` block: `get_vm_path`, destination folder lookup, VM-handle
lookup, the `check_mode` exit, the path comparison, `MoveInto` plus
`wait_for_task`, and the no-op exit.  `fail_json`/`exit_json` raise
`SystemExit`, which `except Exception` does not catch, so they are
terminal. -/
def runCore (name uuid : Option String) (dest : String) (env : Env) :
    Outcome × List Event :=
  if validParams name uuid then
    match env.get_vm with
    | .error e => (.uncaught e, [.getVmCall])
    | .ok none =>
      if env.check_mode then (.exitJson false none, [.getVmCall])
      else
        (.failJson ("Unable to find VM " ++ pyOrStr uuid name ++
          " to move to " ++ dest), [.getVmCall])
    | .ok (some vm) =>
      match env.get_vm_path with
      | .error e => (.failJson (excMsgHead ++ e), [.getVmCall])
      | .ok rawPath =>
        match env.findByInventoryPath dest with
        | .error e =>
          (.failJson (excMsgHead ++ e), [.getVmCall, .findPathCall dest])
        | .ok none =>
          (.failJson "Folder name and/or path does not exist",
            [.getVmCall, .findPathCall dest])
        | .ok (some _folder) =>
          match env.findByInventoryPath (vmFullPath name vm rawPath) with
          | .error e =>
            (.failJson (excMsgHead ++ e),
              [.getVmCall, .findPathCall dest,
                .findPathCall (vmFullPath name vm rawPath)])
          | .ok vmToMove =>
            if env.check_mode then
              (.exitJson true (some env.gather_facts),
                [.getVmCall, .findPathCall dest,
                  .findPathCall (vmFullPath name vm rawPath)])
            else if lstripSlash rawPath ≠ lstripSlash dest then
              match env.move with
              | .error e =>
                (.failJson (excMsgHead ++ e),
                  [.getVmCall, .findPathCall dest,
                    .findPathCall (vmFullPath name vm rawPath),
                    .moveIntoCall vmToMove])
              | .ok (changed, _err) =>
                if changed then
                  (.exitJson true (some env.gather_facts),
                    [.getVmCall, .findPathCall dest,
                      .findPathCall (vmFullPath name vm rawPath),
                      .moveIntoCall vmToMove])
                else
                  (.noReport,
                    [.getVmCall, .findPathCall dest,
                      .findPathCall (vmFullPath name vm rawPath),
                      .moveIntoCall vmToMove])
            else
              (.exitJson false (some env.gather_facts),
                [.getVmCall, .findPathCall dest,
                  .findPathCall (vmFullPath name vm rawPath)])
  else (.failJson argErrorMsg, [])

/-- One invocation of `main()`:
`module.params['dest_folder'] = module.params['dest_folder'].rstrip('/')`
and then the rest of the body. -/
def run (p : Params) (env : Env) : Outcome × List Event :=
  runCore p.name p.uuid (rstripSlash p.dest_folder) env

/-- Number of mutating (`MoveInto`) calls in a trace. -/
def moveCalls : List Event → Nat
  | [] => 0
  | .moveIntoCall _ :: rest => moveCalls rest + 1
  | _ :: rest => moveCalls rest

/-- The conditions under which control reaches the `folder.MoveInto`
call: valid parameters, live mode, VM resolved, path computed without
raising, destination folder lookup returned a handle, VM-handle
lookup did not raise, and the stripped paths differ. -/
def movedReached (p : Params) (env : Env) : Bool :=
  validParams p.name p.uuid && !env.check_mode &&
    (match env.get_vm with
     | .ok (some vm) =>
       (match env.get_vm_path with
        | .ok rawPath =>
          (match env.findByInventoryPath (rstripSlash p.dest_folder) with
           | .ok (some _) =>
             (match env.findByInventoryPath (vmFullPath p.name vm rawPath) with
              | .ok _ =>
                lstripSlash rawPath != lstripSlash (rstripSlash p.dest_folder)
              | .error _ => false)
           | _ => false)
        | .error _ => false)
     | _ => false)

theorem dropWhile_replicate_slash (l : List Char) (k : Nat) :
    (List.replicate k '/' ++ l).dropWhile (fun c => c = '/') =
      l.dropWhile (fun c => c = '/') := by
  induction k with
  | zero => simp
  | succ n ih => simp [List.replicate_succ, List.dropWhile, ih]

theorem rstripSlash_append_slashes (s : String) (k : Nat) :
    rstripSlash (s ++ String.mk (List.replicate k '/')) = rstripSlash s := by
  unfold rstripSlash
  have h : (s ++ String.mk (List.replicate k '/')).data =
      s.data ++ List.replicate k '/' := rfl
  rw [h, List.reverse_append, List.reverse_replicate,
    dropWhile_replicate_slash]

/-- C8: invoking the module with any number of trailing slash
characters appended to `dest_folder` behaves identically (same
outcome and same trace of environment calls) to invoking it with the
stripped destination; in particular `"/dc/vm/folder/"` and
`"/dc/vm/folder"` are treated identically. -/
theorem run_trailing_slash_invariant (p : Params) (env : Env) (k : Nat) :
    run { p with dest_folder := p.dest_folder ++ String.mk (List.replicate k '/') } env
      = run p env := by
  unfold run
  simp [rstripSlash_append_slashes]

/-- C9: when both of `name`/`uuid` are supplied, or neither is, the
invocation is rejected with a failure and an empty call trace — no
VM resolution, no folder resolution, no mutating call runs. -/
theorem invalid_params_rejected_before_lookup (p : Params) (env : Env)
    (h : validParams p.name p.uuid = false) :
    run p env = (Outcome.failJson argErrorMsg, ([] : List Event)) := by
  unfold run runCore
  simp [h]

def envIdle : Env where
  check_mode := false
  get_vm := .ok none
  get_vm_path := .ok ""
  findByInventoryPath := fun _ => .ok none
  gather_facts := ⟨"facts"⟩
  move := .ok (true, "")

theorem invalid_params_witness :
    run { name := none, uuid := none, dest_folder := "/DC0/vm" } envIdle
      = (Outcome.failJson argErrorMsg, ([] : List Event)) :=
  invalid_params_rejected_before_lookup
    { name := none, uuid := none, dest_folder := "/DC0/vm" } envIdle rfl

/-- C1: in live mode, when the VM resolves, the path computation and
both path lookups return without raising, the destination folder is
present, and the VM's current folder path equals the destination path
(compared after stripping trailing slashes from the destination and
leading slashes from both), the module exits successfully with
changed=false and the current facts, and issues no mutating call. -/
theorem noop_when_already_in_place (p : Params) (env : Env) (vm : VM)
    (rawPath : String) (f : Handle) (r : Option Handle)
    (hval : validParams p.name p.uuid = true)
    (hlive : env.check_mode = false)
    (hvm : env.get_vm = .ok (some vm))
    (hpath : env.get_vm_path = .ok rawPath)
    (hfolder : env.findByInventoryPath (rstripSlash p.dest_folder) = .ok (some f))
    (hfull : env.findByInventoryPath (vmFullPath p.name vm rawPath) = .ok r)
    (heq : lstripSlash rawPath = lstripSlash (rstripSlash p.dest_folder)) :
    (run p env).1 = Outcome.exitJson false (some env.gather_facts) ∧
      moveCalls (run p env).2 = 0 := by
  unfold run runCore
  simp [hval, hlive, hvm, hpath, hfolder, hfull, heq, moveCalls]

def pNoop : Params := { name := some "vmA", uuid := none, dest_folder := "/DC0/vm/" }

def envNoop : Env where
  check_mode := false
  get_vm := .ok (some ⟨"vmA"⟩)
  get_vm_path := .ok "/DC0/vm"
  findByInventoryPath := fun s =>
    if s = "/DC0/vm" then .ok (some ⟨"dc0vm"⟩)
    else if s = "DC0/vm/vmA" then .ok (some ⟨"vmref"⟩)
    else .ok none
  gather_facts := ⟨"factsNoop"⟩
  move := .ok (true, "")

theorem noop_when_already_in_place_witness :
    (run pNoop envNoop).1 = Outcome.exitJson false (some envNoop.gather_facts) ∧
      moveCalls (run pNoop envNoop).2 = 0 :=
  noop_when_already_in_place pNoop envNoop ⟨"vmA"⟩ "/DC0/vm" ⟨"dc0vm"⟩
    (some ⟨"vmref"⟩) rfl rfl rfl rfl rfl rfl (by decide)

/-- C4: for an identifier resolving to no VM, live mode fails with the
descriptive not-found message while dry-run mode exits successfully
with changed=false; in both modes no mutating call is issued. -/
theorem not_found_live_dry_asymmetry (p : Params) (env : Env)
    (hval : validParams p.name p.uuid = true)
    (hvm : env.get_vm = .ok none) :
    (env.check_mode = false →
      (run p env).1 = Outcome.failJson ("Unable to find VM " ++
        pyOrStr p.uuid p.name ++ " to move to " ++ rstripSlash p.dest_folder)) ∧
    (env.check_mode = true → (run p env).1 = Outcome.exitJson false none) ∧
      moveCalls (run p env).2 = 0 := by
  unfold run runCore
  refine ⟨fun hm => ?_, fun hm => ?_, ?_⟩
  · simp [hval, hvm, hm]
  · simp [hval, hvm, hm]
  · rcases hm : env.check_mode <;> simp [hval, hvm, hm, moveCalls]

def pNF : Params := { name := none, uuid := some "u-1", dest_folder := "/DC0/vm" }

def envNF : Env where
  check_mode := false
  get_vm := .ok none
  get_vm_path := .ok "/DC0/vm"
  findByInventoryPath := fun _ => .ok none
  gather_facts := ⟨"factsNF"⟩
  move := .ok (true, "")

theorem not_found_live_dry_asymmetry_witness :
    (run pNF envNF).1 = Outcome.failJson ("Unable to find VM " ++
      pyOrStr pNF.uuid pNF.name ++ " to move to " ++ rstripSlash pNF.dest_folder) :=
  (not_found_live_dry_asymmetry pNF envNF rfl rfl).1 rfl

def pCk : Params := { name := some "vmA", uuid := none, dest_folder := "/DC0/vm/sub" }

def envCkMissing : Env where
  check_mode := true
  get_vm := .ok (some ⟨"vmA"⟩)
  get_vm_path := .ok "/DC0/vm"
  findByInventoryPath := fun _ => .ok none
  gather_facts := ⟨"factsCk"⟩
  move := .ok (true, "")

/-- C5 counterexample: in dry-run mode with a resolved VM but an
absent destination folder, the module fails with the folder-absence
message instead of reporting would-change — the dry-run report is not
made before destination folder resolution. -/
theorem dryrun_before_folder_check_cex :
    envCkMissing.check_mode = true ∧
    envCkMissing.get_vm = Except.ok (some ⟨"vmA"⟩) ∧
    (run pCk envCkMissing).1 = Outcome.failJson "Folder name and/or path does not exist" ∧
    (run pCk envCkMissing).1 ≠ Outcome.exitJson true (some envCkMissing.gather_facts) :=
  ⟨rfl, rfl, by decide, by decide⟩

/-- C5 (amended): in dry-run mode, when the VM resolves and the path
computation, destination folder lookup (returning a handle) and
VM-handle lookup all return without raising, the module reports
changed=true with the current facts and performs no mutation — and
this holds regardless of whether the VM is already at the
destination; the report comes after folder resolution, not before. -/
theorem dryrun_reports_would_change (p : Params) (env : Env) (vm : VM)
    (rawPath : String) (f : Handle) (r : Option Handle)
    (hval : validParams p.name p.uuid = true)
    (hck : env.check_mode = true)
    (hvm : env.get_vm = .ok (some vm))
    (hpath : env.get_vm_path = .ok rawPath)
    (hfolder : env.findByInventoryPath (rstripSlash p.dest_folder) = .ok (some f))
    (hfull : env.findByInventoryPath (vmFullPath p.name vm rawPath) = .ok r) :
    (run p env).1 = Outcome.exitJson true (some env.gather_facts) ∧
      moveCalls (run p env).2 = 0 := by
  unfold run runCore
  simp [hval, hck, hvm, hpath, hfolder, hfull, moveCalls]

def envCkOk : Env where
  check_mode := true
  get_vm := .ok (some ⟨"vmA"⟩)
  get_vm_path := .ok "/DC0/vm"
  findByInventoryPath := fun s =>
    if s = "/DC0/vm/sub" then .ok (some ⟨"sub"⟩)
    else if s = "DC0/vm/vmA" then .ok (some ⟨"vmref"⟩)
    else .ok none
  gather_facts := ⟨"factsCkOk"⟩
  move := .ok (true, "")

theorem dryrun_reports_would_change_witness :
    (run pCk envCkOk).1 = Outcome.exitJson true (some envCkOk.gather_facts) ∧
      moveCalls (run pCk envCkOk).2 = 0 :=
  dryrun_reports_would_change pCk envCkOk ⟨"vmA"⟩ "/DC0/vm" ⟨"sub"⟩
    (some ⟨"vmref"⟩) rfl rfl rfl rfl rfl rfl

def pFold : Params := { name := some "vmB", uuid := none, dest_folder := "/DC0/vm/none" }

def envNoVmCk : Env where
  check_mode := true
  get_vm := .ok none
  get_vm_path := .ok "/DC0/vm"
  findByInventoryPath := fun _ => .ok none
  gather_facts := ⟨"factsFold"⟩
  move := .ok (true, "")

/-- C3 counterexample: with the destination folder lookup returning
absent but the VM not resolving, in dry-run mode the outcome is a
successful changed=false exit, not a folder-absence failure — the
folder-absence failure does not hold regardless of VM existence and
mode. -/
theorem folder_missing_fails_cex :
    envNoVmCk.findByInventoryPath (rstripSlash pFold.dest_folder) = Except.ok none ∧
    (run pFold envNoVmCk).1 = Outcome.exitJson false none ∧
    (run pFold envNoVmCk).1 ≠ Outcome.failJson "Folder name and/or path does not exist" :=
  ⟨rfl, rfl, by decide⟩

/-- C3 (amended): when the VM resolves, the path computation returns
without raising, and the destination folder lookup returns absent,
the outcome is a terminal failure with the folder-absence message,
regardless of mode, and no mutating call is issued; when the VM does
not resolve the folder lookup is never performed and the not-found
semantics apply instead. -/
theorem folder_missing_fails (p : Params) (env : Env) (vm : VM)
    (rawPath : String)
    (hval : validParams p.name p.uuid = true)
    (hvm : env.get_vm = .ok (some vm))
    (hpath : env.get_vm_path = .ok rawPath)
    (hfolder : env.findByInventoryPath (rstripSlash p.dest_folder) = .ok none) :
    (run p env).1 = Outcome.failJson "Folder name and/or path does not exist" ∧
      moveCalls (run p env).2 = 0 := by
  unfold run runCore
  simp [hval, hvm, hpath, hfolder, moveCalls]

theorem folder_missing_fails_witness :
    (run pCk envCkMissing).1 = Outcome.failJson "Folder name and/or path does not exist" ∧
      moveCalls (run pCk envCkMissing).2 = 0 :=
  folder_missing_fails pCk envCkMissing ⟨"vmA"⟩ "/DC0/vm" rfl rfl rfl rfl

/-- C6: in the moved path, the report is determined by the task
waiter's success flag: flag true gives a changed=true success exit
with facts, flag false (returned without raising) falls through to
the implicit no-report state — no definitive outcome is emitted on
that branch. -/
theorem waiter_flag_determines_report (p : Params) (env : Env) (vm : VM)
    (rawPath : String) (f : Handle) (r : Option Handle) (b : Bool) (errd : String)
    (hval : validParams p.name p.uuid = true)
    (hlive : env.check_mode = false)
    (hvm : env.get_vm = .ok (some vm))
    (hpath : env.get_vm_path = .ok rawPath)
    (hfolder : env.findByInventoryPath (rstripSlash p.dest_folder) = .ok (some f))
    (hfull : env.findByInventoryPath (vmFullPath p.name vm rawPath) = .ok r)
    (hne : lstripSlash rawPath ≠ lstripSlash (rstripSlash p.dest_folder))
    (hmove : env.move = .ok (b, errd)) :
    (run p env).1 =
      (if b then Outcome.exitJson true (some env.gather_facts) else Outcome.noReport) := by
  unfold run runCore
  cases b <;> simp [hval, hlive, hvm, hpath, hfolder, hfull, hne, hmove]

def pMv : Params := { name := some "vmA", uuid := none, dest_folder := "/DC0/vm/target" }

def envMvNoFlag : Env where
  check_mode := false
  get_vm := .ok (some ⟨"vmA"⟩)
  get_vm_path := .ok "/DC0/vm"
  findByInventoryPath := fun s =>
    if s = "/DC0/vm/target" then .ok (some ⟨"target"⟩)
    else if s = "DC0/vm/vmA" then .ok (some ⟨"vmref"⟩)
    else .ok none
  gather_facts := ⟨"factsMv"⟩
  move := .ok (false, "task reported an error")

theorem waiter_flag_determines_report_witness :
    (run pMv envMvNoFlag).1 = Outcome.noReport :=
  waiter_flag_determines_report pMv envMvNoFlag ⟨"vmA"⟩ "/DC0/vm" ⟨"target"⟩
    (some ⟨"vmref"⟩) false "task reported an error"
    rfl rfl rfl rfl rfl rfl (by decide) rfl

/-- C2 counterexample: live mode, VM resolved, destination folder
resolved, paths differ — the one mutating call is issued, but when
the task waiter returns a false flag the module does not report
success with changed=true: it emits no report at all. -/
theorem move_success_report_cex :
    envMvNoFlag.check_mode = false ∧
    envMvNoFlag.get_vm = Except.ok (some ⟨"vmA"⟩) ∧
    envMvNoFlag.findByInventoryPath (rstripSlash pMv.dest_folder) =
      Except.ok (some ⟨"target"⟩) ∧
    lstripSlash "/DC0/vm" ≠ lstripSlash (rstripSlash pMv.dest_folder) ∧
    moveCalls (run pMv envMvNoFlag).2 = 1 ∧
    (run pMv envMvNoFlag).1 = Outcome.noReport :=
  ⟨rfl, rfl, rfl, by decide, rfl, rfl⟩

/-- C2 (amended): a mutating call is issued exactly when control
reaches the move branch (valid parameters, live mode, VM resolved,
lookups returned without raising, destination folder present, paths
differ), and then exactly one such call is issued; in every other
execution path zero mutating calls are issued.  The operation reports
success with changed=true and the gathered facts when, additionally,
the task waiter returns a true success flag. -/
theorem move_call_exactly_once :
    (∀ (p : Params) (env : Env),
      moveCalls (run p env).2 = if movedReached p env then 1 else 0) ∧
    (∀ (p : Params) (env : Env) (vm : VM) (rawPath : String) (f : Handle)
        (r : Option Handle) (errd : String),
      validParams p.name p.uuid = true →
      env.check_mode = false →
      env.get_vm = .ok (some vm) →
      env.get_vm_path = .ok rawPath →
      env.findByInventoryPath (rstripSlash p.dest_folder) = .ok (some f) →
      env.findByInventoryPath (vmFullPath p.name vm rawPath) = .ok r →
      lstripSlash rawPath ≠ lstripSlash (rstripSlash p.dest_folder) →
      env.move = .ok (true, errd) →
      (run p env).1 = Outcome.exitJson true (some env.gather_facts)) := by
  constructor
  · intro p env
    unfold run runCore movedReached
    cases hval : validParams p.name p.uuid with
    | false => simp [*, moveCalls]
    | true =>
      cases hvm : env.get_vm with
      | error e => simp [*, moveCalls]
      | ok vmo =>
        cases vmo with
        | none => cases hck : env.check_mode <;> simp [*, moveCalls]
        | some vm =>
          cases hpath : env.get_vm_path with
          | error e => simp [*, moveCalls]
          | ok rawPath =>
            cases hfold : env.findByInventoryPath (rstripSlash p.dest_folder) with
            | error e => simp [*, moveCalls]
            | ok fo =>
              cases fo with
              | none => simp [*, moveCalls]
              | some f =>
                cases hfull : env.findByInventoryPath (vmFullPath p.name vm rawPath) with
                | error e => simp [*, moveCalls]
                | ok r =>
                  cases hck : env.check_mode with
                  | true => simp [*, moveCalls]
                  | false =>
                    by_cases hne :
                        lstripSlash rawPath = lstripSlash (rstripSlash p.dest_folder)
                    · simp [*, moveCalls]
                    · cases hmv : env.move with
                      | error e => simp [*, moveCalls]
                      | ok pr =>
                        cases pr with
                        | mk b errd => cases b <;> simp [*, moveCalls]
  · intro p env vm rawPath f r errd hval hlive hvm hpath hfolder hfull hne hmove
    unfold run runCore
    simp [hval, hlive, hvm, hpath, hfolder, hfull, hne, hmove]

def envMvOk : Env where
  check_mode := false
  get_vm := .ok (some ⟨"vmA"⟩)
  get_vm_path := .ok "/DC0/vm"
  findByInventoryPath := fun s =>
    if s = "/DC0/vm/target" then .ok (some ⟨"target"⟩)
    else if s = "DC0/vm/vmA" then .ok (some ⟨"vmref"⟩)
    else .ok none
  gather_facts := ⟨"factsMvOk"⟩
  move := .ok (true, "")

theorem move_call_exactly_once_witness :
    (run pMv envMvOk).1 = Outcome.exitJson true (some envMvOk.gather_facts) :=
  move_call_exactly_once.2 pMv envMvOk ⟨"vmA"⟩ "/DC0/vm" ⟨"target"⟩
    (some ⟨"vmref"⟩) "" rfl rfl rfl rfl rfl rfl (by decide) rfl

def pExc : Params := { name := some "vmA", uuid := none, dest_folder := "/DC0/vm" }

def envBoom : Env where
  check_mode := false
  get_vm := .error "boom"
  get_vm_path := .ok "/DC0/vm"
  findByInventoryPath := fun _ => .ok none
  gather_facts := ⟨"factsBoom"⟩
  move := .ok (true, "")

/-- C7 counterexample: the VM lookup (`pyv.get_vm()`) sits outside
the `try` block, so an exception raised there escapes `main` uncaught
instead of being translated into the catch-all failure message. -/
theorem exception_uncaught_cex :
    envBoom.get_vm = Except.error "boom" ∧
    (run pExc envBoom).1 = Outcome.uncaught "boom" ∧
    (run pExc envBoom).1 ≠ Outcome.failJson (excMsgHead ++ "boom") :=
  ⟨rfl, rfl, by decide⟩

/-- C7 (amended): every exception raised inside the `try` block — the
VM path computation, the destination folder lookup, the VM-handle
lookup, or the move call and its wait — is caught and translated into
a terminal failure whose message carries the original error message
verbatim after the fixed head; nothing is retried.  The initial VM
lookup itself is outside the `try` block and is not covered. -/
theorem try_block_exceptions_caught :
    (∀ (p : Params) (env : Env) (vm : VM) (e : String),
      validParams p.name p.uuid = true →
      env.get_vm = .ok (some vm) →
      env.get_vm_path = .error e →
      (run p env).1 = Outcome.failJson (excMsgHead ++ e)) ∧
    (∀ (p : Params) (env : Env) (vm : VM) (rawPath e : String),
      validParams p.name p.uuid = true →
      env.get_vm = .ok (some vm) →
      env.get_vm_path = .ok rawPath →
      env.findByInventoryPath (rstripSlash p.dest_folder) = .error e →
      (run p env).1 = Outcome.failJson (excMsgHead ++ e)) ∧
    (∀ (p : Params) (env : Env) (vm : VM) (rawPath : String) (f : Handle) (e : String),
      validParams p.name p.uuid = true →
      env.get_vm = .ok (some vm) →
      env.get_vm_path = .ok rawPath →
      env.findByInventoryPath (rstripSlash p.dest_folder) = .ok (some f) →
      env.findByInventoryPath (vmFullPath p.name vm rawPath) = .error e →
      (run p env).1 = Outcome.failJson (excMsgHead ++ e)) ∧
    (∀ (p : Params) (env : Env) (vm : VM) (rawPath : String) (f : Handle)
        (r : Option Handle) (e : String),
      validParams p.name p.uuid = true →
      env.check_mode = false →
      env.get_vm = .ok (some vm) →
      env.get_vm_path = .ok rawPath →
      env.findByInventoryPath (rstripSlash p.dest_folder) = .ok (some f) →
      env.findByInventoryPath (vmFullPath p.name vm rawPath) = .ok r →
      lstripSlash rawPath ≠ lstripSlash (rstripSlash p.dest_folder) →
      env.move = .error e →
      (run p env).1 = Outcome.failJson (excMsgHead ++ e)) := by
  refine ⟨?_, ?_, ?_, ?_⟩
  · intro p env vm e hval hvm hpath
    unfold run runCore
    simp [hval, hvm, hpath]
  · intro p env vm rawPath e hval hvm hpath hfold
    unfold run runCore
    simp [hval, hvm, hpath, hfold]
  · intro p env vm rawPath f e hval hvm hpath hfold hfull
    unfold run runCore
    simp [hval, hvm, hpath, hfold, hfull]
  · intro p env vm rawPath f r e hval hlive hvm hpath hfold hfull hne hmv
    unfold run runCore
    simp [hval, hlive, hvm, hpath, hfold, hfull, hne, hmv]

def envPathExc : Env where
  check_mode := false
  get_vm := .ok (some ⟨"vmA"⟩)
  get_vm_path := .error "path boom"
  findByInventoryPath := fun _ => .ok none
  gather_facts := ⟨"factsPathExc"⟩
  move := .ok (true, "")

theorem try_block_exceptions_caught_witness :
    (run pExc envPathExc).1 = Outcome.failJson (excMsgHead ++ "path boom") :=
  try_block_exceptions_caught.1 pExc envPathExc ⟨"vmA"⟩ "path boom" rfl rfl rfl

/-- C10: in live mode with the destination folder present and the
paths differing, when the path-based lookup of the VM's full
inventory path returns absent, the move request is still issued with
the absent handle as its argument — no presence check guards the
handle passed to `MoveInto`. -/
theorem absent_handle_passed_to_move (p : Params) (env : Env) (vm : VM)
    (rawPath : String) (f : Handle)
    (hval : validParams p.name p.uuid = true)
    (hlive : env.check_mode = false)
    (hvm : env.get_vm = .ok (some vm))
    (hpath : env.get_vm_path = .ok rawPath)
    (hfolder : env.findByInventoryPath (rstripSlash p.dest_folder) = .ok (some f))
    (hfull : env.findByInventoryPath (vmFullPath p.name vm rawPath) = .ok none)
    (hne : lstripSlash rawPath ≠ lstripSlash (rstripSlash p.dest_folder)) :
    Event.moveIntoCall none ∈ (run p env).2 := by
  unfold run runCore
  cases hmv : env.move with
  | error e => simp [hval, hlive, hvm, hpath, hfolder, hfull, hne, hmv]
  | ok pr =>
    cases pr with
    | mk b errd =>
      cases b <;> simp [hval, hlive, hvm, hpath, hfolder, hfull, hne, hmv]

def envGhost : Env where
  check_mode := false
  get_vm := .ok (some ⟨"realName"⟩)
  get_vm_path := .ok "/DC0/vm"
  findByInventoryPath := fun s =>
    if s = "/DC0/vm/target" then .ok (some ⟨"target"⟩) else .ok none
  gather_facts := ⟨"factsGhost"⟩
  move := .ok (true, "")

theorem absent_handle_passed_to_move_witness :
    Event.moveIntoCall none ∈ (run pMv envGhost).2 :=
  absent_handle_passed_to_move pMv envGhost ⟨"realName"⟩ "/DC0/vm" ⟨"target"⟩
    rfl rfl rfl rfl rfl rfl (by decide)
